import Mathlib

/-!
Shallow embedding of `src/app.py` (cat_app): a single-endpoint image server
with a resolver (`get_best_cat_url`), an image pipeline (`process_cat_image`),
a fixed 3-color palette, and a single-slot TTL cache (`get_cat_ink`).

Network responses, decoded images and the image-processing library are
environment inputs; the control flow, arithmetic and state updates are
translated from the Python source.
-/

namespace CatApp

/-- `DISPLAY_WIDTH = 800` (src/app.py line 10). -/
def DISPLAY_WIDTH : ℕ := 800

/-- `DISPLAY_HEIGHT = 480` (src/app.py line 11). -/
def DISPLAY_HEIGHT : ℕ := 480

/-- `CACHE_DURATION = 3600` (src/app.py line 12). -/
def CACHE_DURATION : ℕ := 3600

/-- `BASE_URL = "https://cataas.com"` (src/app.py line 14). -/
def BASE_URL : String := "https://cataas.com"

/-- The flat palette byte list passed to `pal_image.putpalette`
(src/app.py lines 22-28): black, white, red, then 253 black filler triples. -/
def palette_flat : List ℕ :=
  [0, 0, 0, 255, 255, 255, 255, 0, 0] ++ (List.replicate 253 [0, 0, 0]).flatten

/-- RGB triple of palette entry `i`: bytes `3*i`, `3*i+1`, `3*i+2` of the flat
palette list (out-of-range reads give 0, matching the padded 256-entry table). -/
def paletteRGB (i : ℕ) : ℕ × ℕ × ℕ :=
  (palette_flat.getD (3 * i) 0, palette_flat.getD (3 * i + 1) 0,
    palette_flat.getD (3 * i + 2) 0)

/-- Modelled from the spec: PIL's `img.quantize(palette=pal_image,
dither=Image.FLOYDSTEINBERG)` (src/app.py line 119) is library code not in
this repository; it assigns every pixel some index of the supplied 256-entry
palette (the index choice — nearest color with Floyd–Steinberg error
diffusion — is abstracted as an arbitrary selection function `sel`).
Decoding pixel `p` of the quantized image yields the palette entry at the
selected index. -/
def quantize_decode (sel : ℕ → Fin 256) (p : ℕ) : ℕ × ℕ × ℕ :=
  paletteRGB (sel p)

/-- One JSON metadata object returned by Cataas: a `mimetype` field and the
two identifier field conventions `_id` / `id`, each possibly absent. -/
structure CatJson where
  mimetype : Option String
  _id : Option String
  id : Option String
deriving DecidableEq

/-- Python truthiness of an optional string: `None` and `""` are falsy. -/
def pyTruthy : Option String → Bool
  | none => false
  | some s => !s.isEmpty

/-- Python `a or b` on optional strings. -/
def pyOrStr (a b : Option String) : Option String :=
  if pyTruthy a then a else b

/-- Is "gif" a substring starting at the head of the character list? -/
def gifHere : List Char → Bool
  | 'g' :: 'i' :: 'f' :: _ => true
  | _ => false

/-- Scan for "gif" anywhere in the character list. -/
def gifScan : List Char → Bool
  | [] => false
  | c :: rest => gifHere (c :: rest) || gifScan rest

/-- Python `"gif" in s` (src/app.py line 72). -/
def containsGif (s : String) : Bool := gifScan s.data

/-- `data.get("mimetype", "")`: the declared media type, defaulting to `""`. -/
def mimetypeOf (d : CatJson) : String := d.mimetype.getD ""

/-- The download URL built for an accepted candidate:
`f"{BASE_URL}/cat/{cat_id}?width={DISPLAY_WIDTH}"` (src/app.py lines 79, 88). -/
def catUrlOf (cat_id : String) : String :=
  BASE_URL ++ "/cat/" ++ cat_id ++ "?width=" ++ toString DISPLAY_WIDTH

/-- `cat_id = data.get('_id') or data.get('id'); if cat_id: return url`
(src/app.py lines 77-79 and 86-88): pick the identifier with Python `or`
semantics and accept it only when truthy. -/
def acceptCandidate (d : CatJson) : Option String :=
  let cat_id := pyOrStr d._id d.id
  if pyTruthy cat_id then some (catUrlOf (cat_id.getD "")) else none

/-- One iteration of the preferred-filter loop body (src/app.py lines 69-79):
`none` means the iteration falls through (no data, an animated candidate, or
no identifier); `some url` means the loop returns `url`. -/
def attemptResult : Option CatJson → Option String
  | none => none
  | some d => if containsGif (mimetypeOf d) then none else acceptCandidate d

/-- The fallback query body (src/app.py lines 84-88). Note: unlike the loop
body, it performs no check of the media type. -/
def fallbackResult : Option CatJson → Option String
  | none => none
  | some d => acceptCandidate d

/-- Environment of `get_best_cat_url`: the JSON responses the provider gives
to the i-th preferred-filter query and to the fallback query (`none` models a
transport failure, a non-200 status, or a falsy body). -/
structure ResolverEnv where
  preferred : ℕ → Option CatJson
  fallback : Option CatJson

/-- `get_best_cat_url` (src/app.py lines 61-90) with its `range(2)` loop
unrolled. Also returns the list of `tag_mode` flags of the metadata queries
issued, in order, so that query counts can be stated. -/
def get_best_cat_url (env : ResolverEnv) : Option String × List Bool :=
  match attemptResult (env.preferred 0) with
  | some url => (some url, [true])
  | none =>
    match attemptResult (env.preferred 1) with
    | some url => (some url, [true, true])
    | none =>
      match fallbackResult env.fallback with
      | some url => (some url, [true, true, false])
      | none => (none, [true, true, false])

/-- A PIL crop box `(left, upper, right, lower)` as passed to `img.crop`
(src/app.py lines 110, 116). Coordinates are Python ints. -/
structure CropBox where
  left : ℤ
  top : ℤ
  right : ℤ
  bottom : ℤ
deriving DecidableEq

/-- Dimensions of the image `img.crop` returns: always
`(right - left, bottom - top)`, regardless of the source bounds. -/
def cropOutDims (b : CropBox) : ℤ × ℤ := (b.right - b.left, b.bottom - b.top)

/-- The crop window lies inside a `w × h` image, so cropping copies existing
pixels only — no out-of-bounds padding (letterboxing) is introduced. -/
def cropInBounds (b : CropBox) (w h : ℕ) : Prop :=
  0 ≤ b.left ∧ 0 ≤ b.top ∧ b.right ≤ (w : ℤ) ∧ b.bottom ≤ (h : ℤ)

/-- The geometry part of `process_cat_image` (src/app.py lines 102-116) on a
decoded image of size `w × h`, with the arithmetic idealized over exact
rationals: ratio comparison, uniform scale with `int` truncation, and center
crop with Python floor division. Returns the resized dimensions and the crop
box. Python actually computes the ratios, scale, and product in binary64
floats — `process_geom_f` below models those semantics; this idealization
coincides with it at inputs where every float operation is exact (e.g.
1600 × 1600). -/
def process_geom (w h : ℕ) : (ℕ × ℕ) × CropBox :=
  let img_ratio : ℚ := (w : ℚ) / (h : ℚ)
  let target_ratio : ℚ := (DISPLAY_WIDTH : ℚ) / (DISPLAY_HEIGHT : ℚ)
  if target_ratio > img_ratio then
    let new_height : ℕ := Nat.floor ((h : ℚ) * ((DISPLAY_WIDTH : ℚ) / (w : ℚ)))
    let top : ℤ := Int.fdiv ((new_height : ℤ) - (DISPLAY_HEIGHT : ℤ)) 2
    ((DISPLAY_WIDTH, new_height),
      ⟨0, top, (DISPLAY_WIDTH : ℤ), top + (DISPLAY_HEIGHT : ℤ)⟩)
  else
    let new_width : ℕ := Nat.floor ((w : ℚ) * ((DISPLAY_HEIGHT : ℚ) / (h : ℚ)))
    let left : ℤ := Int.fdiv ((new_width : ℤ) - (DISPLAY_WIDTH : ℤ)) 2
    ((new_width, DISPLAY_HEIGHT),
      ⟨left, 0, left + (DISPLAY_WIDTH : ℤ), (DISPLAY_HEIGHT : ℤ)⟩)

/-- `⌊log₂ n⌋` by repeated halving, with explicit fuel so that the recursion
is structural (fuel `n` always suffices). -/
def natLog2Aux : ℕ → ℕ → ℕ
  | 0, _ => 0
  | fuel + 1, n => if n ≤ 1 then 0 else natLog2Aux fuel (n / 2) + 1

/-- `⌊log₂ n⌋` (0 for `n = 0`). -/
def natLog2 (n : ℕ) : ℕ := natLog2Aux n n

/-- Round `N / D` to the nearest natural number, ties to even (`D ≠ 0`). -/
def rnEven (N D : ℕ) : ℕ :=
  let Q := N / D
  let R := N % D
  if 2 * R < D then Q
  else if D < 2 * R then Q + 1
  else if Q % 2 = 0 then Q else Q + 1

/-- `⌊log₂ (n / d)⌋` for positive naturals: the difference of the integer
logs overshoots by at most one, so it is corrected downward when
`2 ^ c > n / d` (the comparison is carried out on naturals by moving the
negative part of the exponent to the other side). -/
def ratFloorLog2 (n d : ℕ) : ℤ :=
  let c : ℤ := (natLog2 n : ℤ) - (natLog2 d : ℤ)
  if 2 ^ c.toNat * d ≤ n * 2 ^ (-c).toNat then c else c - 1

/-- A nonnegative binary64 value `m * 2 ^ e` as mantissa and binary
exponent. The representation need not be normalized: comparisons and
truncation below depend only on the value. -/
structure F64 where
  m : ℕ
  e : ℤ
deriving DecidableEq

/-- IEEE 754 binary64 division of two naturals (round to nearest, ties to
even, 53-bit significand): Python's `n / d` for positive ints. Exact over
the normal range; the dimensions and ratios this program divides are far
from subnormal and overflow. -/
def f64Div (n d : ℕ) : F64 :=
  let e : ℤ := ratFloorLog2 n d - 52
  if 0 ≤ e then ⟨rnEven n (d * 2 ^ e.toNat), e⟩
  else ⟨rnEven (n * 2 ^ (-e).toNat) d, e⟩

/-- IEEE 754 binary64 product of a natural (exact as a float below `2 ^ 53`)
and a nonnegative double: Python's `k * x`. The exact product `k * x.m` is
rounded back to 53 significant bits, ties to even. -/
def f64MulNat (k : ℕ) (x : F64) : F64 :=
  let p := k * x.m
  if natLog2 p ≤ 52 then ⟨p, x.e⟩
  else ⟨rnEven p (2 ^ (natLog2 p - 52)), x.e + (natLog2 p : ℤ) - 52⟩

/-- Value comparison `x < y` of nonnegative doubles (float comparison is
exact), computed on naturals by scaling both sides to the smaller
exponent. -/
def f64Lt (x y : F64) : Bool :=
  x.m * 2 ^ (x.e - y.e).toNat < y.m * 2 ^ (y.e - x.e).toNat

/-- Python `int(x)` for a nonnegative double: truncation toward zero. -/
def f64ToInt (x : F64) : ℕ :=
  if 0 ≤ x.e then x.m * 2 ^ x.e.toNat else x.m / 2 ^ (-x.e).toNat

/-- The geometry part of `process_cat_image` (src/app.py lines 102-116)
under Python's binary64 float semantics: `img.width / img.height`,
`DISPLAY_WIDTH / DISPLAY_HEIGHT` and `scale` are rounded float quotients,
`img.height * scale` (resp. `img.width * scale`) is a rounded float product,
`int` truncates toward zero, and `//` is floor division. -/
def process_geom_f (w h : ℕ) : (ℕ × ℕ) × CropBox :=
  let img_ratio : F64 := f64Div w h
  let target_ratio : F64 := f64Div DISPLAY_WIDTH DISPLAY_HEIGHT
  if f64Lt img_ratio target_ratio then
    let scale : F64 := f64Div DISPLAY_WIDTH w
    let new_height : ℕ := f64ToInt (f64MulNat h scale)
    let top : ℤ := Int.fdiv ((new_height : ℤ) - (DISPLAY_HEIGHT : ℤ)) 2
    ((DISPLAY_WIDTH, new_height),
      ⟨0, top, (DISPLAY_WIDTH : ℤ), top + (DISPLAY_HEIGHT : ℤ)⟩)
  else
    let scale : F64 := f64Div DISPLAY_HEIGHT h
    let new_width : ℕ := f64ToInt (f64MulNat w scale)
    let left : ℤ := Int.fdiv ((new_width : ℤ) - (DISPLAY_WIDTH : ℤ)) 2
    ((new_width, DISPLAY_HEIGHT),
      ⟨left, 0, left + (DISPLAY_WIDTH : ℤ), (DISPLAY_HEIGHT : ℤ)⟩)

/-- An HTTP response body: either a served image buffer (`send_file`) or a
plain error string. Buffers are byte lists. -/
inductive Body where
  | image : List ℕ → Body
  | text : String → Body
deriving DecidableEq

/-- An HTTP response: status code and body. `send_file` yields status 200. -/
structure Response where
  status : ℕ
  body : Body
deriving DecidableEq

/-- The module-level cache globals (src/app.py lines 17-18):
`last_generation_time` and `cached_image_buffer` (`none` = Python `None`). -/
structure CacheState where
  last_generation_time : ℚ
  cached_image_buffer : Option (List ℕ)
deriving DecidableEq

/-- Environment of one `/cat-ink` request: the resolver's provider responses
and, for each URL, the outcome of `process_cat_image url`
(`none` = download / decode / processing failure, `some buf` = the finished
BMP buffer). -/
structure Env where
  resolver : ResolverEnv
  process : String → Option (List ℕ)

/-- The `/cat-ink` handler `get_cat_ink` (src/app.py lines 135-159) on cache
state `st` at time `now`: returns the HTTP response, the new cache state, and
the number of network requests issued (metadata queries plus the image
download that `process_cat_image` begins with). -/
def get_cat_ink (st : CacheState) (now : ℚ) (env : Env) :
    Response × CacheState × ℕ :=
  if st.cached_image_buffer.isSome ∧
      now - st.last_generation_time < (CACHE_DURATION : ℚ) then
    (⟨200, Body.image (st.cached_image_buffer.getD [])⟩, st, 0)
  else
    let r := get_best_cat_url env.resolver
    match r.1 with
    | some cat_url =>
      match env.process cat_url with
      | some processed =>
        (⟨200, Body.image processed⟩,
          ⟨now, some processed⟩, r.2.length + 1)
      | none =>
        (⟨500, Body.text "Error processing image"⟩, st, r.2.length + 1)
    | none =>
      (⟨502, Body.text "Failed to find a cat (API Down?)"⟩, st, r.2.length)

/-! ### Helper lemmas about the handler's two top-level branches -/

theorem get_cat_ink_eq_fresh (st : CacheState) (now : ℚ) (env : Env)
    (hb : st.cached_image_buffer.isSome = true)
    (hfresh : now - st.last_generation_time < (CACHE_DURATION : ℚ)) :
    get_cat_ink st now env =
      (⟨200, Body.image (st.cached_image_buffer.getD [])⟩, st, 0) := by
  unfold get_cat_ink
  rw [if_pos ⟨hb, hfresh⟩]

theorem get_cat_ink_eq_miss (st : CacheState) (now : ℚ) (env : Env)
    (hmiss : ¬(st.cached_image_buffer.isSome = true ∧
      now - st.last_generation_time < (CACHE_DURATION : ℚ))) :
    get_cat_ink st now env =
      match (get_best_cat_url env.resolver).1 with
      | some cat_url =>
        match env.process cat_url with
        | some processed =>
          (⟨200, Body.image processed⟩, ⟨now, some processed⟩,
            (get_best_cat_url env.resolver).2.length + 1)
        | none =>
          (⟨500, Body.text "Error processing image"⟩, st,
            (get_best_cat_url env.resolver).2.length + 1)
      | none =>
        (⟨502, Body.text "Failed to find a cat (API Down?)"⟩, st,
          (get_best_cat_url env.resolver).2.length) := by
  unfold get_cat_ink
  rw [if_neg hmiss]

/-- C4: a request arriving while a cached buffer exists and its age is
strictly below the TTL issues no network request (0 metadata queries, 0
downloads), returns status 200 with exactly the stored bytes, and leaves the
cache entry unmodified. -/
theorem C4_fresh_hit_no_network (st : CacheState) (now : ℚ) (env : Env)
    (b : List ℕ) (hb : st.cached_image_buffer = some b)
    (hfresh : now - st.last_generation_time < (CACHE_DURATION : ℚ)) :
    get_cat_ink st now env = (⟨200, Body.image b⟩, st, 0) := by
  rw [get_cat_ink_eq_fresh st now env (by rw [hb]; rfl) hfresh, hb]
  rfl

/-- Witness for C4 at a concrete fresh state. -/
theorem C4_fresh_hit_no_network_witness :
    get_cat_ink ⟨0, some [66, 77]⟩ 10
        ⟨⟨fun _ => none, none⟩, fun _ => none⟩ =
      (⟨200, Body.image [66, 77]⟩, ⟨0, some [66, 77]⟩, 0) :=
  C4_fresh_hit_no_network ⟨0, some [66, 77]⟩ 10
    ⟨⟨fun _ => none, none⟩, fun _ => none⟩ [66, 77] rfl
    (by norm_num [CACHE_DURATION])

/-- C5: the cache entry is written only on end-to-end pipeline success, and
then both fields at once (buffer := the processed result, timestamp := now);
in every other case — fresh hit, resolver failure, processing failure — the
entry is exactly the pre-request one. -/
theorem C5_atomic_update (st : CacheState) (now : ℚ) (env : Env) :
    (get_cat_ink st now env).2.1 = st ∨
      ∃ url buf, (get_best_cat_url env.resolver).1 = some url ∧
        env.process url = some buf ∧
        (get_cat_ink st now env).2.1 = ⟨now, some buf⟩ := by
  by_cases hc : st.cached_image_buffer.isSome = true ∧
      now - st.last_generation_time < (CACHE_DURATION : ℚ)
  · rw [get_cat_ink_eq_fresh st now env hc.1 hc.2]
    exact Or.inl rfl
  · rw [get_cat_ink_eq_miss st now env hc]
    cases hr : (get_best_cat_url env.resolver).1 with
    | none => exact Or.inl rfl
    | some url =>
      cases hp : env.process url with
      | none => exact Or.inl (by simp [hp])
      | some buf => exact Or.inr ⟨url, buf, rfl, hp, by simp [hp]⟩

/-- C9: with no cached buffer, a resolver failure yields the 502 error
response, a processing failure after a resolved URL yields the 500 error
response, and a 200 status occurs only with the successfully processed buffer
as body. -/
theorem C9_no_cache_errors (st : CacheState) (now : ℚ) (env : Env)
    (hb : st.cached_image_buffer = none) :
    ((get_best_cat_url env.resolver).1 = none →
      (get_cat_ink st now env).1 =
        ⟨502, Body.text "Failed to find a cat (API Down?)"⟩) ∧
    (∀ url, (get_best_cat_url env.resolver).1 = some url →
      env.process url = none →
      (get_cat_ink st now env).1 = ⟨500, Body.text "Error processing image"⟩) ∧
    ((get_cat_ink st now env).1.status = 200 →
      ∃ url buf, (get_best_cat_url env.resolver).1 = some url ∧
        env.process url = some buf ∧
        (get_cat_ink st now env).1.body = Body.image buf) := by
  have hmiss : ¬(st.cached_image_buffer.isSome = true ∧
      now - st.last_generation_time < (CACHE_DURATION : ℚ)) := by
    rw [hb]; rintro ⟨h, -⟩; exact Bool.false_ne_true h
  rw [get_cat_ink_eq_miss st now env hmiss]
  refine ⟨?_, ?_, ?_⟩
  · intro hr; rw [hr]
  · intro url hr hp; simp [hr, hp]
  · intro h200
    cases hr : (get_best_cat_url env.resolver).1 with
    | none => simp [hr] at h200
    | some url =>
      cases hp : env.process url with
      | none => simp [hr, hp] at h200
      | some buf => exact ⟨url, buf, rfl, hp, by simp [hr, hp]⟩

/-- Witness for C9 at a concrete empty-cache state with a failing provider. -/
theorem C9_no_cache_errors_witness :
    (get_cat_ink ⟨0, none⟩ 10 ⟨⟨fun _ => none, none⟩, fun _ => none⟩).1 =
      ⟨502, Body.text "Failed to find a cat (API Down?)"⟩ :=
  (C9_no_cache_errors ⟨0, none⟩ 10 ⟨⟨fun _ => none, none⟩, fun _ => none⟩
    rfl).1 rfl

/-- C1 (counterexample): with a prior buffer `[1, 2, 3]` generated at time 0,
a request at time 4000 (stale: age 4000 ≥ TTL 3600) whose regeneration
pipeline fails (every provider query fails) is answered with the 502 error
response, not with a success status serving the stale buffer. -/
theorem C1_counterexample_stale_not_served :
    (get_cat_ink ⟨0, some [1, 2, 3]⟩ 4000
        ⟨⟨fun _ => none, none⟩, fun _ => none⟩).1 =
      ⟨502, Body.text "Failed to find a cat (API Down?)"⟩ ∧
    (502 : ℕ) ≠ 200 := by
  constructor
  · rw [get_cat_ink_eq_miss _ _ _ (by norm_num [CACHE_DURATION])]
    rfl
  · decide

/-- C1 (amended): when the cache entry is stale, a prior buffer exists, and
the regeneration pipeline fails (no URL resolved, or processing returned no
buffer), the handler returns an error status (502 on no URL, 500 on
processing failure) — it does not serve the stale buffer — and it leaves the
stored buffer and its generation timestamp unmodified. -/
theorem C1_stale_failure_is_error (st : CacheState) (now : ℚ) (env : Env)
    (b : List ℕ) (hb : st.cached_image_buffer = some b)
    (hstale : (CACHE_DURATION : ℚ) ≤ now - st.last_generation_time)
    (hfail : (get_best_cat_url env.resolver).1 = none ∨
      ∃ url, (get_best_cat_url env.resolver).1 = some url ∧
        env.process url = none) :
    ((get_cat_ink st now env).1.status = 502 ∨
      (get_cat_ink st now env).1.status = 500) ∧
    (get_cat_ink st now env).1.status ≠ 200 ∧
    (get_cat_ink st now env).2.1 = st := by
  have hmiss : ¬(st.cached_image_buffer.isSome = true ∧
      now - st.last_generation_time < (CACHE_DURATION : ℚ)) := by
    rintro ⟨-, hlt⟩; exact absurd hstale (not_le.mpr hlt)
  rw [get_cat_ink_eq_miss st now env hmiss]
  rcases hfail with hr | ⟨url, hr, hp⟩
  · simp [hr]
  · simp [hr, hp]

/-- Witness for the amended C1 at a concrete stale state with a failing
resolver. -/
theorem C1_stale_failure_is_error_witness :
    ((get_cat_ink ⟨0, some [1, 2, 3]⟩ 4000
        ⟨⟨fun _ => none, none⟩, fun _ => none⟩).1.status = 502 ∨
      (get_cat_ink ⟨0, some [1, 2, 3]⟩ 4000
        ⟨⟨fun _ => none, none⟩, fun _ => none⟩).1.status = 500) ∧
    (get_cat_ink ⟨0, some [1, 2, 3]⟩ 4000
        ⟨⟨fun _ => none, none⟩, fun _ => none⟩).1.status ≠ 200 ∧
    (get_cat_ink ⟨0, some [1, 2, 3]⟩ 4000
        ⟨⟨fun _ => none, none⟩, fun _ => none⟩).2.1 = ⟨0, some [1, 2, 3]⟩ :=
  C1_stale_failure_is_error ⟨0, some [1, 2, 3]⟩ 4000
    ⟨⟨fun _ => none, none⟩, fun _ => none⟩ [1, 2, 3] rfl
    (by norm_num [CACHE_DURATION]) (Or.inl rfl)

/-- C2: a provider that declares `mimetype = "image/gif"` on every response
defeats the claim — the two preferred-filter attempts skip the animated
candidate, but the fallback attempt has no media-type check and the resolver
returns the animated fallback candidate's URL instead of NONE. -/
theorem C2_fallback_accepts_gif :
    containsGif (mimetypeOf ⟨some "image/gif", some "abc", none⟩) = true ∧
    (get_best_cat_url
        ⟨fun _ => some ⟨some "image/gif", some "abc", none⟩,
          some ⟨some "image/gif", some "abc", none⟩⟩).1 =
      some "https://cataas.com/cat/abc?width=800" := by
  decide

/-- C7: on every run, the resolver's query log is a prefix of
`[preferred, preferred, fallback]`: at most 2 preferred-filter metadata
queries, then at most 1 fallback query, at most 3 queries in total. -/
theorem C7_query_budget (env : ResolverEnv) :
    ((get_best_cat_url env).2 = [true] ∨
      (get_best_cat_url env).2 = [true, true] ∨
      (get_best_cat_url env).2 = [true, true, false]) ∧
    (get_best_cat_url env).2.length ≤ 3 ∧
    (get_best_cat_url env).2.count true ≤ 2 ∧
    (get_best_cat_url env).2.count false ≤ 1 := by
  have hlog : (get_best_cat_url env).2 = [true] ∨
      (get_best_cat_url env).2 = [true, true] ∨
      (get_best_cat_url env).2 = [true, true, false] := by
    unfold get_best_cat_url
    cases attemptResult (env.preferred 0) with
    | some url => simp
    | none =>
      cases attemptResult (env.preferred 1) with
      | some url => simp
      | none =>
        cases fallbackResult env.fallback with
        | some url => simp
        | none => simp
  refine ⟨hlog, ?_⟩
  rcases hlog with h | h | h <;> rw [h] <;> exact ⟨by decide, by decide, by decide⟩

/-- C10: a metadata response with the media-type field absent (or equal to
the empty string) is treated as non-animated: when it carries a truthy
identifier, the first preferred-filter attempt accepts it and the resolver
returns its download URL. -/
theorem C10_absent_mimetype_accepted (env : ResolverEnv) (m : Option String)
    (hm : m = none ∨ m = some "") (cid : String)
    (hcid : cid.isEmpty = false)
    (h0 : env.preferred 0 = some ⟨m, some cid, none⟩) :
    (get_best_cat_url env).1 = some (catUrlOf cid) := by
  have hmt : mimetypeOf ⟨m, some cid, none⟩ = "" := by
    rcases hm with h | h <;> simp [mimetypeOf, h]
  have hgif : containsGif "" = false := by decide
  have hacc : attemptResult (some ⟨m, some cid, none⟩) = some (catUrlOf cid) := by
    simp [attemptResult, hmt, hgif, acceptCandidate, pyOrStr, pyTruthy, hcid]
  unfold get_best_cat_url
  rw [h0, hacc]

/-- Witness for C10: a response with no `mimetype` field and identifier
"abc" resolves to that candidate's URL on the first attempt. -/
theorem C10_absent_mimetype_accepted_witness :
    (get_best_cat_url
        ⟨fun _ => some ⟨none, some "abc", none⟩, none⟩).1 =
      some (catUrlOf "abc") :=
  C10_absent_mimetype_accepted ⟨fun _ => some ⟨none, some "abc", none⟩, none⟩
    none (Or.inl rfl) "abc" (by decide) rfl

/-! ### Palette lemmas -/

theorem filler_getD_eq_zero (n : ℕ) :
    ((List.replicate 253 [(0 : ℕ), 0, 0]).flatten).getD n 0 = 0 := by
  rw [List.getD_eq_getElem?_getD]
  cases hx : ((List.replicate 253 [(0 : ℕ), 0, 0]).flatten)[n]? with
  | none => rfl
  | some x =>
    have hmem := List.getElem?_mem hx
    simp only [List.mem_flatten, List.mem_replicate] at hmem
    obtain ⟨l, ⟨-, rfl⟩, hxl⟩ := hmem
    simp only [List.mem_cons, List.not_mem_nil, or_false] at hxl
    rcases hxl with rfl | rfl | rfl <;> rfl

theorem palette_flat_getD_of_ge (n : ℕ) (hn : 9 ≤ n) :
    palette_flat.getD n 0 = 0 := by
  unfold palette_flat
  rw [List.getD_eq_getElem?_getD, List.getElem?_append_right (by simpa using hn)]
  rw [← List.getD_eq_getElem?_getD]
  exact filler_getD_eq_zero _

theorem paletteRGB_cases (i : ℕ) :
    paletteRGB i = (0, 0, 0) ∨ paletteRGB i = (255, 255, 255) ∨
      paletteRGB i = (255, 0, 0) := by
  match i with
  | 0 => exact Or.inl (by decide)
  | 1 => exact Or.inr (Or.inl (by decide))
  | 2 => exact Or.inr (Or.inr (by decide))
  | n + 3 =>
    refine Or.inl ?_
    unfold paletteRGB
    rw [palette_flat_getD_of_ge (3 * (n + 3)) (by omega),
      palette_flat_getD_of_ge (3 * (n + 3) + 1) (by omega),
      palette_flat_getD_of_ge (3 * (n + 3) + 2) (by omega)]

/-- C6: whatever palette index the quantizer assigns to a pixel, the decoded
RGB triple is black, white, or red — every entry of the 256-entry palette,
the 253 filler entries included, carries one of these three triples, so no
other color can appear in the decoded pixel data. -/
theorem C6_quantize_only_palette_colors (sel : ℕ → Fin 256) (p : ℕ) :
    quantize_decode sel p = (0, 0, 0) ∨
      quantize_decode sel p = (255, 255, 255) ∨
      quantize_decode sel p = (255, 0, 0) :=
  paletteRGB_cases (sel p)

/-! ### Geometry under float semantics -/

/-- C3: the no-padding guarantee fails under the program's binary64
arithmetic. For a 195 × 117 source (aspect ratio exactly 5:3, equal to the
target's), the ratio test takes the wider-or-equal branch, the float product
`195 * (480 / 117)` rounds to just below 800, so `new_width = int(...) = 799`,
the crop offset is `(799 - 800) // 2 = -1`, and the crop box
`(-1, 0, 799, 480)` reaches outside the 799 × 480 resized image, where
`img.crop` pads the missing column — a residual letterbox bar. The output
dimensions are still exactly 800 × 480. -/
theorem C3_float_padding_at_195x117 :
    process_geom_f 195 117 = ((799, 480), ⟨-1, 0, 799, 480⟩) ∧
    ¬cropInBounds ⟨-1, 0, 799, 480⟩ 799 480 ∧
    cropOutDims ⟨-1, 0, 799, 480⟩ =
      ((DISPLAY_WIDTH : ℤ), (DISPLAY_HEIGHT : ℤ)) := by
  refine ⟨by decide, by norm_num [cropInBounds], by decide⟩

/-- C8: on a 1600 × 1600 source the ratio test takes the taller-than-target
branch (`800/480 > 1600/1600`), the image is resized to 800 × 800, the crop
offset is `(800 - 480) // 2 = 160`, and the crop box keeps exactly rows
`[160, 640)`: `process_geom 1600 1600 = ((800, 800), ⟨0, 160, 800, 640⟩)`. -/
theorem C8_square_source_example :
    (1600 : ℚ) / (1600 : ℚ) < (DISPLAY_WIDTH : ℚ) / (DISPLAY_HEIGHT : ℚ) ∧
    process_geom 1600 1600 = ((800, 800), ⟨0, 160, 800, 640⟩) := by
  constructor
  · norm_num [DISPLAY_WIDTH, DISPLAY_HEIGHT]
  · norm_num [process_geom, DISPLAY_WIDTH, DISPLAY_HEIGHT]
    decide

end CatApp
